import Mathlib

/-!
# Verification of the real-time audio session pipeline

Shallow embedding of the live-conversation core of the `ai-voice` repository
(the `App` component in `src/unnamed/part_000`): the PCM/base64 codec helpers
(`createBlob`, `decodeAudioData`, `encode`, `decode`), the playback-scheduling
branch of the live `onmessage` handler, the transcript accumulation, and the
session lifecycle handlers (`handleStartLiveSession`, `handleStopLiveSession`,
`onerror`, `onclose`).

Modelling conventions:
* JavaScript numbers are modelled as `ℚ`.  Every arithmetic step the code
  performs on audio samples is exact in binary floating point (multiplication
  and division by the power of two `32768`, and 16-bit integers are exactly
  representable), so `ℚ` introduces no modelling error.
* The 16-bit store `int16[i] = data[i] * 32768` performs the ECMAScript
  `ToInt16` conversion: truncate toward zero, reduce modulo `2^16`, and
  reinterpret as a signed 16-bit value.  This is `toInt16` below.
* `btoa`/`atob` composed with the byte/char-code loops of `encode`/`decode`
  are standard base64 over byte sequences; `encodeB64`/`decodeB64` embed that
  (with `'='` padding, rejecting malformed input with `none`, as `atob`
  throws).
* React state is modelled explicitly: `useState` setters given *updater
  functions* read the latest state, while a *direct read* of a state variable
  inside a session callback reads the value captured by the closure when
  `handleStartLiveSession` ran.  The transcript handler therefore takes the
  captured snapshot as a separate parameter.
* The stateful lifecycle (refs, promise resolution, `getUserMedia`) is a
  transition system over an explicit record of the component's refs and
  state, with the event-loop interleavings as lists of atomic events.
-/

/-! ## PCM codec (`createBlob` lines 60–70, `decodeAudioData` lines 32–49) -/

/-- Truncation toward zero of a rational, as ECMAScript `ToIntegerOrInfinity`
truncates a Number. -/
def jsTrunc (t : ℚ) : ℤ :=
  if 0 ≤ t then ⌊t⌋ else ⌈t⌉

/-- ECMAScript `ToInt16`, applied when a Number is stored into an
`Int16Array` slot: truncate toward zero, reduce modulo `2^16` into
`[0, 2^16)`, and reinterpret values `≥ 2^15` as negative. -/
def toInt16 (t : ℚ) : ℤ :=
  let m := jsTrunc t % 65536
  if m < 32768 then m else m - 65536

/-- Sample-level core of `createBlob` (line 64): `int16[i] = data[i] * 32768`
for each sample.  (The spec calls this operation `floatToPcm16`.) -/
def floatToPcm16 (data : List ℚ) : List ℤ :=
  data.map (fun x => toInt16 (x * 32768))

/-- Sample-level core of `decodeAudioData` for one mono channel (line 45):
`channelData[i] = dataInt16[i] / 32768.0`.  (The spec calls this
`pcm16ToFloat`.) -/
def pcm16ToFloat (pcm : List ℤ) : List ℚ :=
  pcm.map (fun v : ℤ => (v : ℚ) / 32768)

/-- Modelled from the spec's words for `floatToPcm16` (§4.1): "multiply by
32768 and truncate to a 16-bit signed integer (no dithering, no clamping —
out-of-range inputs silently wrap per two's-complement truncation)", i.e.
value mod `2^16` reinterpreted as signed, written here in the shifted-modulus
form.  Compared against the source embedding in the C6 theorem. -/
def floatToPcm16Spec (data : List ℚ) : List ℤ :=
  data.map (fun x => (jsTrunc (x * 32768) + 32768) % 65536 - 32768)

/-! ## Base64 transport coding (`encode` lines 51–58, `decode` lines 22–30)

`encode` turns bytes into a binary string by char code and applies `btoa`;
`decode` applies `atob` and reads char codes back.  The byte/char-code
round trip is the identity on bytes, so the composition is standard base64
over byte sequences, embedded here directly. -/

/-- The standard base64 alphabet used by `btoa`/`atob`. -/
def base64Alphabet : List Char :=
  ['A', 'B', 'C', 'D', 'E', 'F', 'G', 'H', 'I', 'J', 'K', 'L', 'M',
   'N', 'O', 'P', 'Q', 'R', 'S', 'T', 'U', 'V', 'W', 'X', 'Y', 'Z',
   'a', 'b', 'c', 'd', 'e', 'f', 'g', 'h', 'i', 'j', 'k', 'l', 'm',
   'n', 'o', 'p', 'q', 'r', 's', 't', 'u', 'v', 'w', 'x', 'y', 'z',
   '0', '1', '2', '3', '4', '5', '6', '7', '8', '9', '+', '/']

/-- Character for a six-bit group. -/
def sextetToChar (n : ℕ) : Char :=
  base64Alphabet.getD n 'A'

/-- Alphabet position of a character; `none` for non-alphabet characters
(as `atob` rejects them). -/
def charToSextet (c : Char) : Option ℕ :=
  base64Alphabet.findIdx? (fun x => x == c)

/-- `btoa` composed with the char-code loop of `encode`: three bytes map to
four alphabet characters; a trailing group of one or two bytes is padded
with `'='`. -/
def encodeB64 : List ℕ → List Char
  | [] => []
  | [a] =>
      [sextetToChar (a / 4), sextetToChar (a % 4 * 16), '=', '=']
  | [a, b] =>
      [sextetToChar (a / 4), sextetToChar (a % 4 * 16 + b / 16),
       sextetToChar (b % 16 * 4), '=']
  | a :: b :: c :: rest =>
      sextetToChar (a / 4) :: sextetToChar (a % 4 * 16 + b / 16) ::
      sextetToChar (b % 16 * 4 + c / 64) :: sextetToChar (c % 64) ::
      encodeB64 rest

/-- `atob` composed with the char-code loop of `decode`: four characters map
back to three bytes, `'='` padding marks a final group of one or two bytes,
and malformed input (non-alphabet characters, misplaced padding, length not a
multiple of four) yields `none` as `atob` throws. -/
def decodeB64 : List Char → Option (List ℕ)
  | [] => some []
  | c1 :: c2 :: c3 :: c4 :: rest =>
      match charToSextet c1, charToSextet c2 with
      | some s1, some s2 =>
          if c3 = '=' then
            if c4 = '=' && rest.isEmpty then
              some [s1 * 4 + s2 / 16]
            else none
          else
            match charToSextet c3 with
            | some s3 =>
                if c4 = '=' then
                  if rest.isEmpty then
                    some [s1 * 4 + s2 / 16, s2 % 16 * 16 + s3 / 4]
                  else none
                else
                  match charToSextet c4 with
                  | some s4 =>
                      (decodeB64 rest).map
                        (fun t => (s1 * 4 + s2 / 16) ::
                                  (s2 % 16 * 16 + s3 / 4) ::
                                  (s3 % 4 * 64 + s4) :: t)
                  | none => none
            | none => none
      | _, _ => none
  | _ => none

/-- Looking an alphabet character back up recovers its six-bit value. -/
theorem charToSextet_round : ∀ s < 64, charToSextet (sextetToChar s) = some s := by
  decide

/-- Alphabet characters are never the padding character. -/
theorem sextetToChar_ne_pad : ∀ s < 64, sextetToChar s ≠ '=' := by
  decide

/-- C5: for every byte sequence B, `base64Decode(base64Encode(B))` equals B
exactly — decoding the `encode`d base64 of any byte list recovers the list. -/
theorem base64_roundtrip : ∀ (bs : List ℕ), (∀ x ∈ bs, x < 256) →
    decodeB64 (encodeB64 bs) = some bs
  | [], _ => rfl
  | [a], h => by
      have ha : a < 256 := h a (by simp)
      have e1 : charToSextet (sextetToChar (a / 4)) = some (a / 4) :=
        charToSextet_round _ (by omega)
      have e2 : charToSextet (sextetToChar (a % 4 * 16)) = some (a % 4 * 16) :=
        charToSextet_round _ (by omega)
      simp [encodeB64, decodeB64, e1, e2]
      omega
  | [a, b], h => by
      have ha : a < 256 := h a (by simp)
      have hb : b < 256 := h b (by simp)
      have e1 : charToSextet (sextetToChar (a / 4)) = some (a / 4) :=
        charToSextet_round _ (by omega)
      have e2 : charToSextet (sextetToChar (a % 4 * 16 + b / 16)) =
          some (a % 4 * 16 + b / 16) :=
        charToSextet_round _ (by omega)
      have e3 : charToSextet (sextetToChar (b % 16 * 4)) = some (b % 16 * 4) :=
        charToSextet_round _ (by omega)
      have n3 : sextetToChar (b % 16 * 4) ≠ '=' :=
        sextetToChar_ne_pad _ (by omega)
      simp [encodeB64, decodeB64, e1, e2, e3, n3]
      omega
  | a :: b :: c :: rest, h => by
      have ha : a < 256 := h a (by simp)
      have hb : b < 256 := h b (by simp)
      have hc : c < 256 := h c (by simp)
      have ih := base64_roundtrip rest (fun x hx => h x (by simp [hx]))
      have e1 : charToSextet (sextetToChar (a / 4)) = some (a / 4) :=
        charToSextet_round _ (by omega)
      have e2 : charToSextet (sextetToChar (a % 4 * 16 + b / 16)) =
          some (a % 4 * 16 + b / 16) :=
        charToSextet_round _ (by omega)
      have e3 : charToSextet (sextetToChar (b % 16 * 4 + c / 64)) =
          some (b % 16 * 4 + c / 64) :=
        charToSextet_round _ (by omega)
      have e4 : charToSextet (sextetToChar (c % 64)) = some (c % 64) :=
        charToSextet_round _ (by omega)
      have n3 : sextetToChar (b % 16 * 4 + c / 64) ≠ '=' :=
        sextetToChar_ne_pad _ (by omega)
      have n4 : sextetToChar (c % 64) ≠ '=' :=
        sextetToChar_ne_pad _ (by omega)
      simp [encodeB64, decodeB64, e1, e2, e3, e4, n3, n4, ih]
      omega

/-- Witness for C5 at the concrete byte list `[77, 0, 255, 10]`. -/
theorem base64_roundtrip_witness :
    (∀ x ∈ [77, 0, 255, 10], x < 256) ∧
    decodeB64 (encodeB64 [77, 0, 255, 10]) = some [77, 0, 255, 10] :=
  ⟨by decide, base64_roundtrip [77, 0, 255, 10] (by decide)⟩

/-! ## Codec round-trip facts -/

/-- Indexing a mapped list through `getD` below the length applies the
function to the corresponding element. -/
theorem getD_map_lt {α β : Type} (f : α → β) (l : List α) (i : ℕ) (da : α)
    (db : β) (h : i < l.length) : (l.map f).getD i db = f (l.getD i da) := by
  induction l generalizing i with
  | nil => simp at h
  | cons a t ih =>
    cases i with
    | zero => simp
    | succ n =>
      simp only [List.map_cons, List.getD_cons_succ]
      exact ih n (by simpa using h)

/-- A sample in `[-1, 1)` scales to a 16-bit value in range, so `toInt16`
performs no wrapping and agrees with plain truncation. -/
theorem toInt16_bounds (t : ℚ) (h1 : -32768 ≤ t) (h2 : t < 32768) :
    toInt16 t = jsTrunc t ∧ |t - (jsTrunc t : ℚ)| ≤ 1 := by
  have hb : (-32768 : ℤ) ≤ jsTrunc t ∧ jsTrunc t ≤ 32767 ∧
      |t - (jsTrunc t : ℚ)| ≤ 1 := by
    unfold jsTrunc
    split_ifs with h0
    · have hlt : ⌊t⌋ < (32768 : ℤ) := Int.floor_lt.mpr (by exact_mod_cast h2)
      have hge : (0 : ℤ) ≤ ⌊t⌋ := Int.floor_nonneg.mpr h0
      refine ⟨by omega, by omega, ?_⟩
      have hf1 : (⌊t⌋ : ℚ) ≤ t := Int.floor_le t
      have hf2 : t - 1 < (⌊t⌋ : ℚ) := Int.sub_one_lt_floor t
      rw [abs_le]
      constructor <;> linarith
    · push_neg at h0
      have hc1 : t ≤ (⌈t⌉ : ℚ) := Int.le_ceil t
      have hc2 : (⌈t⌉ : ℚ) < t + 1 := Int.ceil_lt_add_one t
      have hge : (-32768 : ℤ) ≤ ⌈t⌉ := by
        by_contra hcon
        push_neg at hcon
        have : ((⌈t⌉ : ℤ) : ℚ) < ((-32768 : ℤ) : ℚ) := by exact_mod_cast hcon
        push_cast at this
        linarith
      have hle : ⌈t⌉ ≤ (0 : ℤ) := Int.ceil_le.mpr (by exact_mod_cast le_of_lt h0)
      refine ⟨hge, by omega, ?_⟩
      rw [abs_le]
      constructor <;> linarith
  obtain ⟨hb1, hb2, hb3⟩ := hb
  refine ⟨?_, hb3⟩
  simp only [toInt16]
  split_ifs <;> omega

/-- Round-trip error for a single sample in `[-1, 1)` is at most one
quantization step. -/
theorem roundtrip_sample (x : ℚ) (hlo : -1 ≤ x) (hhi : x < 1) :
    |x - (toInt16 (x * 32768) : ℚ) / 32768| ≤ 1 / 32768 := by
  have ht1 : -32768 ≤ x * 32768 := by linarith
  have ht2 : x * 32768 < 32768 := by linarith
  obtain ⟨h16, hdist⟩ := toInt16_bounds (x * 32768) ht1 ht2
  rw [h16]
  have hxt : x - (jsTrunc (x * 32768) : ℚ) / 32768 =
      (x * 32768 - (jsTrunc (x * 32768) : ℚ)) / 32768 := by
    field_simp
  rw [hxt, abs_div, abs_of_pos (by norm_num : (0 : ℚ) < 32768)]
  gcongr

/-- C4 counterexample: the sample `1.0` lies in the declared range
`[-1.0, 1.0]`, but `1.0 * 32768 = 32768` wraps to `-32768` in the
`Int16Array` store, so the round trip reconstructs `-1.0` with error `2`,
far above one quantization step `1/32768`. -/
theorem codec_roundtrip_fails_at_one :
    pcm16ToFloat (floatToPcm16 [(1 : ℚ)]) = [(-1 : ℚ)] ∧
    ¬ |(1 : ℚ) - (-1 : ℚ)| ≤ 1 / 32768 := by
  constructor
  · have h1 : jsTrunc ((1 : ℚ) * 32768) = 32768 := by
      norm_num [jsTrunc]
    simp only [pcm16ToFloat, floatToPcm16, List.map_cons, List.map_nil,
      toInt16, h1]
    norm_num
  · rw [abs_le]
    norm_num

/-- C4 (amended): for every sample array and every index whose sample lies in
`[-1.0, 1.0)`, the decoded value `pcm16ToFloat (floatToPcm16 samples)` is
within one quantization step, `|original - reconstructed| ≤ 1/32768`; the
claim's closed right endpoint `1.0` must be excluded, since there the
product `32768` wraps to `-32768` (see the counterexample). -/
theorem codec_roundtrip_within_quantization
    (samples : List ℚ) (i : ℕ) (hi : i < samples.length)
    (hlo : -1 ≤ samples.getD i 0) (hhi : samples.getD i 0 < 1) :
    |samples.getD i 0 - (pcm16ToFloat (floatToPcm16 samples)).getD i 0| ≤
      1 / 32768 := by
  have hlen : i < (floatToPcm16 samples).length := by
    simpa [floatToPcm16] using hi
  have h2 := getD_map_lt (fun v : ℤ => (v : ℚ) / 32768)
    (floatToPcm16 samples) i 0 0 hlen
  have h1 := getD_map_lt (fun x : ℚ => toInt16 (x * 32768)) samples i 0 0 hi
  unfold pcm16ToFloat floatToPcm16
  simp only [floatToPcm16] at h2 h1 hlen
  rw [h2, h1]
  exact roundtrip_sample _ hlo hhi

/-- Witness for C4 (amended) at the concrete sample list `[1/2]`, index 0. -/
theorem codec_roundtrip_within_quantization_witness :
    (0 < ([(1 : ℚ)/2]).length ∧ -1 ≤ ([(1 : ℚ)/2]).getD 0 0 ∧
      ([(1 : ℚ)/2]).getD 0 0 < 1) ∧
    |([(1 : ℚ)/2]).getD 0 0 -
      (pcm16ToFloat (floatToPcm16 [(1 : ℚ)/2])).getD 0 0| ≤ 1 / 32768 :=
  ⟨⟨by norm_num, by norm_num, by norm_num⟩,
   codec_roundtrip_within_quantization [(1 : ℚ)/2] 0 (by norm_num)
     (by norm_num) (by norm_num)⟩

/-- Pointwise agreement of the source store (`toInt16`) with the spec's
"truncate, reduce mod `2^16`, reinterpret as signed" description. -/
theorem toInt16_eq_wrap (t : ℚ) :
    toInt16 t = (jsTrunc t + 32768) % 65536 - 32768 := by
  simp only [toInt16]
  split_ifs <;> omega

/-- C6: `floatToPcm16` multiplies each sample by 32768 and truncates with no
clamping; out-of-range products wrap per two's-complement truncation (value
mod `2^16` reinterpreted as signed 16-bit) — the source embedding agrees with
the spec-worded definition on every input. -/
theorem floatToPcm16_wraps_twos_complement (samples : List ℚ) :
    floatToPcm16 samples = floatToPcm16Spec samples := by
  simp only [floatToPcm16, floatToPcm16Spec]
  apply List.map_congr_left
  intro x _
  exact toInt16_eq_wrap (x * 32768)

/-! ## Playback scheduler (the `modelTurn` audio branch of `onmessage`,
lines 288–301)

The branch reads the output clock, clamps `nextStartTimeRef` up to it,
starts the decoded buffer at that time, advances `nextStartTimeRef` by the
buffer's duration, and records the source node in `audioSourcesRef`. -/

/-- The scheduler state held in refs: `nextStartTimeRef` and
`audioSourcesRef` (source nodes tracked by an id). -/
structure PlaybackState where
  nextStartTimeRef : ℚ
  audioSourcesRef : List ℕ
deriving DecidableEq

/-- One execution of the audio-chunk branch for a decoded buffer of duration
`dur`, with `currentTime` the output clock at message arrival; returns the
new state and the time passed to `source.start`. -/
def audioChunkStep (s : PlaybackState) (currentTime dur : ℚ) (srcId : ℕ) :
    PlaybackState × ℚ :=
  let nst := max s.nextStartTimeRef currentTime
  let startAt := nst
  ({ nextStartTimeRef := startAt + dur,
     audioSourcesRef := srcId :: s.audioSourcesRef }, startAt)

/-- C1: every chunk is scheduled at `startAt = max(nextStartTime, now)` and
advances `nextStartTime = startAt + duration`; consequently three buffers of
durations `d1, d2, d3` arriving with no idle gap (each arrival clock at most
the current horizon) start at `t`, `t + d1`, `t + d1 + d2` with
`t = max t0 n1` — strictly back-to-back, never overlapping. -/
theorem playback_back_to_back
    (t0 n1 n2 n3 d1 d2 d3 : ℚ) (i1 i2 i3 : ℕ) (srcs : List ℕ)
    (hg2 : n2 ≤ max t0 n1 + d1) (hg3 : n3 ≤ max t0 n1 + d1 + d2) :
    (∀ (s : PlaybackState) (now dur : ℚ) (i : ℕ),
        (audioChunkStep s now dur i).2 = max s.nextStartTimeRef now ∧
        (audioChunkStep s now dur i).1.nextStartTimeRef =
          (audioChunkStep s now dur i).2 + dur) ∧
    (audioChunkStep ⟨t0, srcs⟩ n1 d1 i1).2 = max t0 n1 ∧
    (audioChunkStep (audioChunkStep ⟨t0, srcs⟩ n1 d1 i1).1 n2 d2 i2).2 =
      max t0 n1 + d1 ∧
    (audioChunkStep (audioChunkStep
        (audioChunkStep ⟨t0, srcs⟩ n1 d1 i1).1 n2 d2 i2).1 n3 d3 i3).2 =
      max t0 n1 + d1 + d2 := by
  refine ⟨fun s now dur i => ⟨rfl, rfl⟩, rfl, ?_, ?_⟩
  · simp only [audioChunkStep]
    exact max_eq_left hg2
  · simp only [audioChunkStep]
    rw [max_eq_left hg2, max_eq_left hg3]

/-- Witness for C1 at `t0 = 0`, arrivals at clock `0`, durations `1, 2, 3`. -/
theorem playback_back_to_back_witness :
    ((0 : ℚ) ≤ max (0 : ℚ) 0 + 1) ∧ ((0 : ℚ) ≤ max (0 : ℚ) 0 + 1 + 2) ∧
    ((∀ (s : PlaybackState) (now dur : ℚ) (i : ℕ),
        (audioChunkStep s now dur i).2 = max s.nextStartTimeRef now ∧
        (audioChunkStep s now dur i).1.nextStartTimeRef =
          (audioChunkStep s now dur i).2 + dur) ∧
     (audioChunkStep ⟨0, []⟩ 0 1 0).2 = max (0 : ℚ) 0 ∧
     (audioChunkStep (audioChunkStep ⟨0, []⟩ 0 1 0).1 0 2 1).2 =
       max (0 : ℚ) 0 + 1 ∧
     (audioChunkStep (audioChunkStep
         (audioChunkStep ⟨0, []⟩ 0 1 0).1 0 2 1).1 0 3 2).2 =
       max (0 : ℚ) 0 + 1 + 2) :=
  ⟨by norm_num, by norm_num,
   playback_back_to_back 0 0 0 0 1 2 3 0 1 2 [] (by norm_num) (by norm_num)⟩

/-! ## Transcript aggregation (`onmessage`, lines 274–286)

The handler appends `outputTranscription.text` to `agentResponse`, *else*
appends `inputTranscription.text` to `userInput`, and on `turnComplete`
pushes a turn onto `liveTranscript` and resets the accumulator.

Crucially, the push `setLiveTranscript(prev => [...prev,
currentLiveTranscription])` reads `currentLiveTranscription` *directly* —
that is the value captured by the `onmessage` closure when
`handleStartLiveSession` ran, not the accumulated React state (the delta
branches use functional updaters and therefore do see the latest state).
The captured snapshot is the `captured` parameter below, constant for the
session's lifetime. -/

/-- One conversational exchange (the element type of `liveTranscript` and of
`currentLiveTranscription`). -/
structure Turn where
  userInput : String
  agentResponse : String
deriving DecidableEq

/-- The transcription-relevant shape of a `LiveServerMessage`:
`serverContent.outputTranscription`, `serverContent.inputTranscription`
(presence of the object, carrying its `text`), and
`serverContent.turnComplete`. -/
structure ServerMessage where
  outputTranscription : Option String
  inputTranscription : Option String
  turnComplete : Bool
deriving DecidableEq

/-- The two React state cells the transcript code touches. -/
structure TranscriptState where
  liveTranscript : List Turn
  currentLiveTranscription : Turn
deriving DecidableEq

/-- The transcript part of the `onmessage` handler.  `captured` is the value
of `currentLiveTranscription` captured by the closure at session start. -/
def onmessageTranscript (captured : Turn) (m : ServerMessage)
    (s : TranscriptState) : TranscriptState :=
  let s1 :=
    match m.outputTranscription with
    | some t =>
        { s with currentLiveTranscription :=
            { s.currentLiveTranscription with
                agentResponse := s.currentLiveTranscription.agentResponse ++ t } }
    | none =>
        match m.inputTranscription with
        | some t =>
            { s with currentLiveTranscription :=
                { s.currentLiveTranscription with
                    userInput := s.currentLiveTranscription.userInput ++ t } }
        | none => s
  if m.turnComplete then
    { liveTranscript := s1.liveTranscript ++ [captured],
      currentLiveTranscription := { userInput := "", agentResponse := "" } }
  else s1

/-- Modelled from the spec (§4.5): on `TurnComplete` the aggregator pushes a
snapshot of the *accumulated* `PartialTurn`, then resets it.  Used to state
the divergence in the C2 theorem. -/
def onmessageTranscriptSpec (m : ServerMessage) (s : TranscriptState) :
    TranscriptState :=
  let s1 :=
    match m.outputTranscription with
    | some t =>
        { s with currentLiveTranscription :=
            { s.currentLiveTranscription with
                agentResponse := s.currentLiveTranscription.agentResponse ++ t } }
    | none =>
        match m.inputTranscription with
        | some t =>
            { s with currentLiveTranscription :=
                { s.currentLiveTranscription with
                    userInput := s.currentLiveTranscription.userInput ++ t } }
        | none => s
  if m.turnComplete then
    { liveTranscript := s1.liveTranscript ++ [s1.currentLiveTranscription],
      currentLiveTranscription := { userInput := "", agentResponse := "" } }
  else s1

/-- Feed a message sequence through the source handler with a fixed captured
snapshot. -/
def processMessages (captured : Turn) (s : TranscriptState)
    (msgs : List ServerMessage) : TranscriptState :=
  msgs.foldl (fun st m => onmessageTranscript captured m st) s

/-- The C2 event sequence from the claim. -/
def c2Messages : List ServerMessage :=
  [{ outputTranscription := none, inputTranscription := some "hel",
     turnComplete := false },
   { outputTranscription := none, inputTranscription := some "lo",
     turnComplete := false },
   { outputTranscription := some "hi", inputTranscription := none,
     turnComplete := false },
   { outputTranscription := none, inputTranscription := none,
     turnComplete := true }]

/-- A fresh session: empty transcript, empty accumulator, and the closure
snapshot captured at session start is also the empty turn. -/
def freshTranscriptState : TranscriptState :=
  { liveTranscript := [],
    currentLiveTranscription := { userInput := "", agentResponse := "" } }

/-- C2: on the claim's event sequence the code finalizes exactly one turn,
but it is the stale closure snapshot `{"", ""}` — not the accumulated
`{"hello", "hi"}` the claim (and spec §4.5) state.  The accumulator is reset
as claimed, and the spec-modelled aggregator does produce
`{"hello", "hi"}`. -/
theorem transcript_turnComplete_pushes_stale_snapshot :
    (processMessages { userInput := "", agentResponse := "" }
        freshTranscriptState c2Messages).liveTranscript =
      [{ userInput := "", agentResponse := "" }] ∧
    (processMessages { userInput := "", agentResponse := "" }
        freshTranscriptState c2Messages).currentLiveTranscription =
      { userInput := "", agentResponse := "" } ∧
    (c2Messages.foldl (fun st m => onmessageTranscriptSpec m st)
        freshTranscriptState).liveTranscript =
      [{ userInput := "hello", agentResponse := "hi" }] ∧
    (processMessages { userInput := "", agentResponse := "" }
        freshTranscriptState c2Messages).liveTranscript ≠
      [{ userInput := "hello", agentResponse := "hi" }] := by
  refine ⟨rfl, rfl, rfl, ?_⟩
  decide

/-- C10: when one server message carries both an output and an input
transcription delta, only the output delta is appended to `agentResponse`;
the input delta in the same message is dropped (`else if` dispatch,
lines 275–281). -/
theorem transcription_branches_mutually_exclusive
    (captured : Turn) (s : TranscriptState) (outT inT : String) :
    onmessageTranscript captured
      { outputTranscription := some outT, inputTranscription := some inT,
        turnComplete := false } s =
    { s with currentLiveTranscription :=
        { s.currentLiveTranscription with
            agentResponse := s.currentLiveTranscription.agentResponse ++ outT } } :=
  rfl

/-! ## Session lifecycle (`handleStartLiveSession` lines 232–319,
`handleStopLiveSession` lines 321–336)

State of the component's refs and the live-session `useState` cells.
Booleans model whether a ref is non-null / a resource open; the connect
promise is tracked by `connectPending` (a connect begun), `promiseResolved`,
`closeOnResolve` (a `.then(session => session.close())` handler attached
while the promise was pending — what `handleStopLiveSession` line 322 does),
and `sessionClosed` (`close()` called on the session object). -/

/-- Refs and state of the live-session part of `App`. -/
structure LiveAppState where
  isLiveSessionActive : Bool
  liveStatus : String
  liveTranscript : List Turn
  currentLiveTranscription : Turn
  sessionPromiseRef : Bool
  connectPending : Bool
  promiseResolved : Bool
  closeOnResolve : Bool
  sessionClosed : Bool
  micRequested : Bool
  microphoneStreamRef : Bool
  scriptProcessorRef : Bool
  inputAudioContextRef : Bool
  inputCtxClosed : Bool
  outputAudioContextRef : Bool
  outputCtxClosed : Bool
  nextStartTimeRef : ℚ
  audioSourcesRef : List ℕ
deriving DecidableEq

/-- `handleStopLiveSession` (lines 321–336): attach a close-on-resolve
handler to the session promise (closing at once if it already resolved),
null the promise ref, stop and null the microphone stream, disconnect and
null the script processor, close both audio contexts (their refs are *not*
nulled, and `audioSourcesRef`/`nextStartTimeRef` are *not* touched), clear
the active flag, set status `Disconnected`. -/
def handleStopLiveSession (s : LiveAppState) : LiveAppState :=
  { s with
    closeOnResolve :=
      if s.sessionPromiseRef && !s.promiseResolved then true
      else s.closeOnResolve,
    sessionClosed :=
      if s.sessionPromiseRef && s.promiseResolved then true
      else s.sessionClosed,
    sessionPromiseRef := false,
    microphoneStreamRef := false,
    scriptProcessorRef := false,
    inputCtxClosed := if s.inputAudioContextRef then true else s.inputCtxClosed,
    outputCtxClosed := if s.outputAudioContextRef then true else s.outputCtxClosed,
    isLiveSessionActive := false,
    liveStatus := "Disconnected" }

/-- Outcome of `handleStartLiveSession`: the early `return` after the
missing-agent/missing-key alert, or a session start.  The code has no other
failure path — in particular no already-active check. -/
inductive StartResult
  | aborted
  | started
deriving DecidableEq

/-- `handleStartLiveSession` (lines 232–251 for the synchronous part): guard
on agent/API key, set active and `Connecting...`, clear both transcript
cells, open a fresh 24 kHz output context, reset `nextStartTimeRef` and
`audioSourcesRef`, and store a fresh connect promise in `sessionPromiseRef`.
Nothing else is touched: no teardown of a previous session, and the
microphone/input-context refs keep their old values. -/
def handleStartLiveSession (agentFound apiKeyPresent : Bool)
    (s : LiveAppState) : LiveAppState × StartResult :=
  if !agentFound || !apiKeyPresent then (s, StartResult.aborted)
  else
    ({ s with
        isLiveSessionActive := true,
        liveStatus := "Connecting...",
        liveTranscript := [],
        currentLiveTranscription := { userInput := "", agentResponse := "" },
        outputAudioContextRef := true,
        outputCtxClosed := false,
        nextStartTimeRef := 0,
        audioSourcesRef := [],
        sessionPromiseRef := true,
        connectPending := true,
        promiseResolved := false,
        closeOnResolve := false,
        sessionClosed := false }, StartResult.started)

/-- The `onerror` callback (lines 303–306): set status to the error message,
then run `handleStopLiveSession` — which immediately overwrites the status
with `Disconnected`. -/
def handleOnError (msg : String) (s : LiveAppState) : LiveAppState :=
  handleStopLiveSession { s with liveStatus := "Error: " ++ msg }

/-- The `onclose` callback (lines 307–310). -/
def handleOnClose (s : LiveAppState) : LiveAppState :=
  handleStopLiveSession { s with liveStatus := "Disconnected" }

/-- Atomic event-loop steps relevant to the connect-after-stop race:
the user's stop click; resolution of the connect promise (running the
attached then-handlers and the `onopen` callback up to its `await
getUserMedia`); resolution of `getUserMedia` (assigning the stream and
wiring the script processor — the rest of `onopen`); and the transport's
`onclose` firing after `close()` was called. -/
inductive LiveEv
  | userStop
  | connectResolves
  | gumResolves
  | oncloseFires

/-- Event-loop semantics.  `connectResolves` fires once per connect; its
`onopen` body (lines 254–262) sets status `Connected`, opens a fresh input
context and requests the microphone regardless of any stop that already
happened — the code has no cancellation check.  `gumResolves` (lines
258–272 after the await) assigns the stream and script processor whenever
the request was made. -/
def liveStep (s : LiveAppState) (e : LiveEv) : LiveAppState :=
  match e with
  | LiveEv.userStop => handleStopLiveSession s
  | LiveEv.connectResolves =>
      if s.connectPending && !s.promiseResolved then
        { s with
            promiseResolved := true,
            sessionClosed := s.sessionClosed || s.closeOnResolve,
            liveStatus := "Connected",
            inputAudioContextRef := true,
            inputCtxClosed := false,
            micRequested := true }
      else s
  | LiveEv.gumResolves =>
      if s.micRequested then
        { s with microphoneStreamRef := true, scriptProcessorRef := true }
      else s
  | LiveEv.oncloseFires =>
      if s.sessionClosed then handleOnClose s else s

/-- The pristine component state. -/
def initLiveAppState : LiveAppState :=
  { isLiveSessionActive := false,
    liveStatus := "Disconnected",
    liveTranscript := [],
    currentLiveTranscription := { userInput := "", agentResponse := "" },
    sessionPromiseRef := false,
    connectPending := false,
    promiseResolved := false,
    closeOnResolve := false,
    sessionClosed := false,
    micRequested := false,
    microphoneStreamRef := false,
    scriptProcessorRef := false,
    inputAudioContextRef := false,
    inputCtxClosed := false,
    outputAudioContextRef := false,
    outputCtxClosed := false,
    nextStartTimeRef := 0,
    audioSourcesRef := [] }

/-- State right after a successful `handleStartLiveSession`, while the
connect promise is still pending. -/
def startedLiveAppState : LiveAppState :=
  (handleStartLiveSession true true initLiveAppState).1

/-- The connect-after-stop interleaving: the user stops while the connect is
in flight; the connect then resolves (the attached then-handler closes the
session, `onopen` starts the microphone request); `onclose` fires and runs
the teardown again while `getUserMedia` is still pending; finally
`getUserMedia` resolves and assigns the stream. -/
def connectAfterStopTrace : List LiveEv :=
  [LiveEv.userStop, LiveEv.connectResolves, LiveEv.oncloseFires,
   LiveEv.gumResolves]

/-- C3: in the connect-after-stop interleaving the session *is* closed (the
then-handler attached by the stop fires on resolution, as the claim's second
half says), but the microphone stream acquired by `onopen` after the stop is
left open — no later event stops it, refuting the claim's first half.  The
spec itself (§9) notes the source does not guard this race. -/
theorem connect_after_stop_leaks_microphone :
    (connectAfterStopTrace.foldl liveStep startedLiveAppState).microphoneStreamRef
      = true ∧
    (connectAfterStopTrace.foldl liveStep startedLiveAppState).scriptProcessorRef
      = true ∧
    (connectAfterStopTrace.foldl liveStep startedLiveAppState).sessionClosed
      = true ∧
    (connectAfterStopTrace.foldl liveStep startedLiveAppState).isLiveSessionActive
      = false := by
  refine ⟨rfl, rfl, rfl, rfl⟩

/-- A representative fully connected session: active, `Connected`, resolved
promise, microphone capturing. -/
def connectedLiveAppState : LiveAppState :=
  { isLiveSessionActive := true,
    liveStatus := "Connected",
    liveTranscript := [],
    currentLiveTranscription := { userInput := "", agentResponse := "" },
    sessionPromiseRef := true,
    connectPending := true,
    promiseResolved := true,
    closeOnResolve := false,
    sessionClosed := false,
    micRequested := true,
    microphoneStreamRef := true,
    scriptProcessorRef := true,
    inputAudioContextRef := true,
    inputCtxClosed := false,
    outputAudioContextRef := true,
    outputCtxClosed := false,
    nextStartTimeRef := 0,
    audioSourcesRef := [] }

/-- C7 counterexample: calling `handleStartLiveSession` while a session is
Open does not fail — there is no already-active check and no `AlreadyActive`
outcome in the code.  It returns `started`, stores a fresh connect promise,
and leaves the prior session's microphone capture running (no teardown), so
a second concurrent session does begin. -/
theorem startSession_no_alreadyActive_check :
    (handleStartLiveSession true true connectedLiveAppState).2 =
      StartResult.started ∧
    (handleStartLiveSession true true connectedLiveAppState).1.sessionPromiseRef
      = true ∧
    (handleStartLiveSession true true connectedLiveAppState).1.liveStatus
      = "Connecting..." ∧
    (handleStartLiveSession true true connectedLiveAppState).1.microphoneStreamRef
      = true := by
  refine ⟨rfl, rfl, rfl, rfl⟩

/-- C7 (amended): `handleStartLiveSession` performs no active-session check.
Called with a valid agent and API key while a session is already
Connecting/Open, it returns `started` (never an `AlreadyActive` failure),
marks the state Connecting with a fresh pending promise, and does not tear
down the prior session — the old microphone stream ref is left exactly as it
was.  Mutual exclusion is provided only by the UI, which hides the start
control while `isLiveSessionActive` is set. -/
theorem startSession_starts_second_session (s : LiveAppState)
    (h : s.isLiveSessionActive = true) :
    (handleStartLiveSession true true s).2 = StartResult.started ∧
    (handleStartLiveSession true true s).1.isLiveSessionActive = true ∧
    (handleStartLiveSession true true s).1.liveStatus = "Connecting..." ∧
    (handleStartLiveSession true true s).1.sessionPromiseRef = true ∧
    (handleStartLiveSession true true s).1.promiseResolved = false ∧
    (handleStartLiveSession true true s).1.microphoneStreamRef =
      s.microphoneStreamRef := by
  refine ⟨rfl, rfl, rfl, rfl, rfl, rfl⟩

/-- Witness for C7 (amended) at the connected state. -/
theorem startSession_starts_second_session_witness :
    connectedLiveAppState.isLiveSessionActive = true ∧
    ((handleStartLiveSession true true connectedLiveAppState).2 =
        StartResult.started ∧
     (handleStartLiveSession true true connectedLiveAppState).1.isLiveSessionActive
        = true ∧
     (handleStartLiveSession true true connectedLiveAppState).1.liveStatus
        = "Connecting..." ∧
     (handleStartLiveSession true true connectedLiveAppState).1.sessionPromiseRef
        = true ∧
     (handleStartLiveSession true true connectedLiveAppState).1.promiseResolved
        = false ∧
     (handleStartLiveSession true true connectedLiveAppState).1.microphoneStreamRef
        = connectedLiveAppState.microphoneStreamRef) :=
  ⟨rfl, startSession_starts_second_session connectedLiveAppState rfl⟩

/-- C8: a transport error during a connected session triggers full teardown
and no reconnect (no pending promise remains, capture stopped, contexts
closed, session closed), but the final status is `Disconnected`, not the
error message — `onerror` sets `Error: ...` and then `handleStopLiveSession`
immediately overwrites it, so the error string (which the UI would render
red) is never the resulting status. -/
theorem transportError_status_overwritten :
    (handleOnError "boom" connectedLiveAppState).liveStatus = "Disconnected" ∧
    (handleOnError "boom" connectedLiveAppState).liveStatus ≠ "Error: boom" ∧
    (handleOnError "boom" connectedLiveAppState).isLiveSessionActive = false ∧
    (handleOnError "boom" connectedLiveAppState).sessionPromiseRef = false ∧
    (handleOnError "boom" connectedLiveAppState).sessionClosed = true ∧
    (handleOnError "boom" connectedLiveAppState).microphoneStreamRef = false ∧
    (handleOnError "boom" connectedLiveAppState).scriptProcessorRef = false ∧
    (handleOnError "boom" connectedLiveAppState).inputCtxClosed = true ∧
    (handleOnError "boom" connectedLiveAppState).outputCtxClosed = true := by
  refine ⟨rfl, by decide, rfl, rfl, rfl, rfl, rfl, rfl, rfl⟩

/-- C9 counterexample: stopping a session with a scheduled source still in
the active set leaves `audioSourcesRef` untouched — the code never calls
`stop()` on the tracked sources and never clears the set (it is cleared only
by the next `handleStartLiveSession`), so "playback cleared" fails; audio
only ceases because the output context is closed. -/
theorem stopSession_does_not_clear_sources :
    (handleStopLiveSession
        { connectedLiveAppState with audioSourcesRef := [7] }).audioSourcesRef
      = [7] ∧
    ([7] : List ℕ) ≠ [] := by
  refine ⟨rfl, by decide⟩

/-- C9 (amended): `handleStopLiveSession` is idempotent, and after it the
state is Disconnected and inactive, the promise ref is nulled, capture is
stopped, each audio context is closed exactly when its ref was non-null, and
`close()` has been called on the session exactly when the promise ref held a
resolved promise (a pending promise instead gets a close-on-resolve
handler).  The active playback set, however, is left unchanged — not
cleared, contrary to the claim's "playback cleared". -/
theorem stopSession_idempotent (s : LiveAppState) :
    handleStopLiveSession (handleStopLiveSession s) = handleStopLiveSession s ∧
    (handleStopLiveSession s).liveStatus = "Disconnected" ∧
    (handleStopLiveSession s).isLiveSessionActive = false ∧
    (handleStopLiveSession s).sessionPromiseRef = false ∧
    (handleStopLiveSession s).microphoneStreamRef = false ∧
    (handleStopLiveSession s).scriptProcessorRef = false ∧
    (handleStopLiveSession s).inputCtxClosed =
      (s.inputAudioContextRef || s.inputCtxClosed) ∧
    (handleStopLiveSession s).outputCtxClosed =
      (s.outputAudioContextRef || s.outputCtxClosed) ∧
    (handleStopLiveSession s).sessionClosed =
      (s.sessionClosed || (s.sessionPromiseRef && s.promiseResolved)) ∧
    (handleStopLiveSession s).closeOnResolve =
      (s.closeOnResolve || (s.sessionPromiseRef && !s.promiseResolved)) ∧
    (handleStopLiveSession s).audioSourcesRef = s.audioSourcesRef := by
  obtain ⟨ac, st, tr, cu, sp, cp, pr, cr, sc, mr, ms, spr, ic, icc, oc,
    occ, nst, src⟩ := s
  cases sp <;> cases pr <;> cases ic <;> cases oc <;>
    simp [handleStopLiveSession]
